import Mathlib

/-!
Shallow embedding of `src/hidebilishow_scanner.py` (class `BilibiliShowScanner`):
the single-file sequential scanner that queries a project-lookup endpoint over an
inclusive ID range, classifies each response by its `hide` field, and can
serialize the session to a JSON document.

Network effects are modelled by a fetch oracle `Int → FetchResult` giving, per
project ID, the observable result of the one HTTP GET performed by
`get_project_info`; console printing and sleeping are modelled as explicit
message lists / event traces.
-/

/-- The two fields of the payload's `data` object that the scanner reads
(`project_info.get('hide')`, `project_info.get('name', '未知项目')`).
`none` models an absent (or JSON-null) field. -/
structure ProjData where
  hide : Option Int
  name : Option String
deriving Repr, DecidableEq

/-- Observable result of the single `self.session.get(url, timeout=10)` call in
`get_project_info`, as seen by its try/except structure:
  * `transportError e` — a `requests.exceptions.RequestException` (DNS failure,
    connection reset, timeout, ...) with exception text `e`;
  * `httpError e` — `response.raise_for_status()` raised on a non-2xx HTTP
    status (also a `RequestException`, caught by the same handler);
  * `decodeError e` — `response.json()` raised `json.JSONDecodeError`;
  * `otherError e` — any other exception (`except Exception` branch);
  * `payload code message data` — a decoded JSON body with its top-level
    `code` (absent modelled as `none`), optional `message`, and optional
    `data` object. -/
inductive FetchResult where
  | transportError (e : String)
  | httpError (e : String)
  | decodeError (e : String)
  | otherError (e : String)
  | payload (code : Option Int) (message : Option String) (data : Option ProjData)
deriving Repr, DecidableEq

/-- `BilibiliShowScanner.get_project_info(project_id)`: returns the payload's
`data` object when the request succeeded and the embedded application `code`
is 0, and `None` on every failure; the second component is the list of console
lines it prints. -/
def get_project_info (project_id : Int) (r : FetchResult) :
    Option ProjData × List String :=
  match r with
  | .payload code message data =>
      if code = some 0 then
        (data, [])
      else
        (none, ["API返回错误 ID " ++ toString project_id ++ ": " ++
                message.getD "未知错误"])
  | .transportError e =>
      (none, ["请求失败 ID " ++ toString project_id ++ ": " ++ e])
  | .httpError e =>
      (none, ["请求失败 ID " ++ toString project_id ++ ": " ++ e])
  | .decodeError e =>
      (none, ["JSON解析失败 ID " ++ toString project_id ++ ": " ++ e])
  | .otherError e =>
      (none, ["未知错误 ID " ++ toString project_id ++ ": " ++ e])

/-- The per-ID result dict built by `scan_project`:
`{'id': ..., 'hide': ..., 'name': ..., 'status': ..., 'error': ...}`. -/
structure ScanOutcome where
  id : Int
  hide : Option Int
  name : Option String
  status : String
  error : Option String
deriving Repr, DecidableEq

/-- The initial result dict of `scan_project` before any field is overwritten
(lines 129–135 of the source): hide/name/error `None`, status `'unknown'`. -/
def initial_outcome (project_id : Int) : ScanOutcome :=
  { id := project_id, hide := none, name := none, status := "unknown",
    error := none }

/-- The mutable accumulators set up in `BilibiliShowScanner.__init__`:
`self.hidden_projects = []` and `self.scan_results = []`. -/
structure ScannerState where
  hidden_projects : List ScanOutcome
  scan_results : List ScanOutcome
deriving Repr, DecidableEq

/-- A freshly constructed scanner (`BilibiliShowScanner()`). -/
def init_state : ScannerState :=
  { hidden_projects := [], scan_results := [] }

/-- `BilibiliShowScanner.scan_project(project_id)`: builds the result dict,
marks it `'error'` with the fixed message `'无法获取项目信息'` when
`get_project_info` returned `None`, otherwise fills `hide`/`name`, sets status
`'success'`, and appends the result to `self.hidden_projects` when
`result['hide'] == 1`.  Returns the result together with the updated state. -/
def scan_project (σ : ScannerState) (project_id : Int) (r : FetchResult) :
    ScanOutcome × ScannerState :=
  match (get_project_info project_id r).1 with
  | none =>
      ({ initial_outcome project_id with
          status := "error", error := some "无法获取项目信息" }, σ)
  | some info =>
      let result : ScanOutcome :=
        { initial_outcome project_id with
            hide := info.hide,
            name := some (info.name.getD "未知项目"),
            status := "success" }
      if result.hide = some 1 then
        (result, { σ with hidden_projects := σ.hidden_projects ++ [result] })
      else
        (result, σ)

/-- `range(start_id, end_id + 1)` as a list of `Int` IDs (empty when
`end_id < start_id`). -/
def idRange (start_id end_id : Int) : List Int :=
  (List.range (end_id + 1 - start_id).toNat).map
    (fun (k : Nat) => start_id + (k : Int))

/-- Externally observable effects of one `scan_range` loop iteration: the HTTP
GET issued by `scan_project` and the `time.sleep(interval)` call. -/
inductive Event where
  | fetch (project_id : Int)
  | sleep (interval : Rat)
deriving Repr, DecidableEq

/-- One iteration of the `for project_id in range(start_id, end_id + 1)` loop
of `scan_range`: scan the project, append the result to `self.scan_results`,
and sleep `interval` seconds when `project_id < end_id`. -/
def scanStep (fetch : Int → FetchResult) (end_id : Int) (interval : Rat)
    (acc : ScannerState × List Event) (project_id : Int) :
    ScannerState × List Event :=
  let σ := acc.1
  let evs := acc.2 ++ [Event.fetch project_id]
  let res := scan_project σ project_id (fetch project_id)
  let σ' := { res.2 with scan_results := res.2.scan_results ++ [res.1] }
  if project_id < end_id then
    (σ', evs ++ [Event.sleep interval])
  else
    (σ', evs)

/-- `BilibiliShowScanner.scan_range(start_id, end_id, interval)`: iterate the
loop body over every ID of the inclusive range, starting from scanner state
`σ`; also returns the trace of fetch/sleep events in order. -/
def scan_range (fetch : Int → FetchResult) (σ : ScannerState)
    (start_id end_id : Int) (interval : Rat) : ScannerState × List Event :=
  (idRange start_id end_id).foldl (scanStep fetch end_id interval) (σ, [])

/-- The membership test of the hidden-projects collection: status `'success'`
and `hide == 1` (an error outcome always has `hide = none`). -/
def hiddenPred (o : ScanOutcome) : Bool :=
  o.status == "success" && o.hide == some 1

/-- JSON values, for the document written by `save_results`
(`json.dump(results_data, ...)`). -/
inductive Json where
  | null : Json
  | num : Int → Json
  | str : String → Json
  | arr : List Json → Json
  | obj : List (String × Json) → Json
deriving Repr

/-- Field lookup in a JSON object. -/
def Json.getField (j : Json) (key : String) : Option Json :=
  match j with
  | Json.obj fields => (fields.find? (fun p => p.1 == key)).map (fun p => p.2)
  | _ => none

/-- JSON encoding of a nullable integer (Python `None` ↦ JSON `null`). -/
def encOptInt : Option Int → Json
  | none => Json.null
  | some n => Json.num n

/-- JSON encoding of a nullable string. -/
def encOptStr : Option String → Json
  | none => Json.null
  | some s => Json.str s

/-- JSON encoding of one result dict, field for field. -/
def encodeOutcome (o : ScanOutcome) : Json :=
  Json.obj [("id", Json.num o.id), ("hide", encOptInt o.hide),
            ("name", encOptStr o.name), ("status", Json.str o.status),
            ("error", encOptStr o.error)]

/-- The `results_data` document assembled by `save_results`: `scan_time`,
`total_scanned = len(self.scan_results)`, `hidden_count =
len(self.hidden_projects)`, the hidden list and the full log. -/
def save_results_doc (scan_time : String) (σ : ScannerState) : Json :=
  Json.obj [("scan_time", Json.str scan_time),
            ("total_scanned", Json.num σ.scan_results.length),
            ("hidden_count", Json.num σ.hidden_projects.length),
            ("hidden_projects", Json.arr (σ.hidden_projects.map encodeOutcome)),
            ("all_results", Json.arr (σ.scan_results.map encodeOutcome))]

/-- Modelled from the spec: reading back a persisted nullable integer. The
source never re-reads its output file, so the parsing direction of the
round-trip property follows the spec's field descriptions. -/
def decOptInt : Json → Option (Option Int)
  | Json.null => some none
  | Json.num n => some (some n)
  | _ => none

/-- Modelled from the spec: reading back a persisted nullable string. -/
def decOptStr : Json → Option (Option String)
  | Json.null => some none
  | Json.str s => some (some s)
  | _ => none

/-- Modelled from the spec: parsing one outcome object `{id, hide, name,
status, error}` back from the persisted document. -/
def decodeOutcome (j : Json) : Option ScanOutcome :=
  match j.getField "id", j.getField "hide", j.getField "name",
        j.getField "status", j.getField "error" with
  | some (Json.num i), some hj, some nj, some (Json.str st), some ej =>
      match decOptInt hj, decOptStr nj, decOptStr ej with
      | some h, some n, some e =>
          some { id := i, hide := h, name := n, status := st, error := e }
      | _, _, _ => none
  | _, _, _, _, _ => none

/-- Modelled from the spec: parsing a JSON array of outcome objects. -/
def decodeOutcomes : List Json → Option (List ScanOutcome)
  | [] => some []
  | j :: js =>
      match decodeOutcome j, decodeOutcomes js with
      | some o, some os => some (o :: os)
      | _, _ => none

/-- Modelled from the spec: parsing the persisted outcome arrays. -/
def decodeOutcomeArr (j : Json) : Option (List ScanOutcome) :=
  match j with
  | Json.arr js => decodeOutcomes js
  | _ => none

/-- The outcome that `scan_project` produces for a given ID and fetch result;
the returned dict does not depend on the scanner state. -/
def outcomeOf (fetch : Int → FetchResult) (project_id : Int) : ScanOutcome :=
  (scan_project init_state project_id (fetch project_id)).1

/-- The fetch/sleep events of one `scan_range` loop iteration. -/
def perIdEvents (end_id : Int) (interval : Rat) (project_id : Int) : List Event :=
  Event.fetch project_id ::
    (if project_id < end_id then [Event.sleep interval] else [])

theorem scan_project_eq (σ : ScannerState) (project_id : Int) (r : FetchResult) :
    scan_project σ project_id r =
      ((scan_project init_state project_id r).1,
       { σ with hidden_projects := σ.hidden_projects ++
           (if hiddenPred (scan_project init_state project_id r).1 then
              [(scan_project init_state project_id r).1] else []) }) := by
  unfold scan_project
  cases h : (get_project_info project_id r).1 with
  | none => simp [hiddenPred, initial_outcome]
  | some info =>
      by_cases hh : info.hide = some 1
      · simp [hh, hiddenPred, initial_outcome]
      · simp [hh, hiddenPred, initial_outcome]

theorem scanStep_eq (fetch : Int → FetchResult) (end_id : Int) (interval : Rat)
    (σ : ScannerState) (evs : List Event) (project_id : Int) :
    scanStep fetch end_id interval (σ, evs) project_id =
      ({ hidden_projects := σ.hidden_projects ++
           (if hiddenPred (outcomeOf fetch project_id) then
              [outcomeOf fetch project_id] else []),
         scan_results := σ.scan_results ++ [outcomeOf fetch project_id] },
       evs ++ perIdEvents end_id interval project_id) := by
  have h' := scan_project_eq σ project_id (fetch project_id)
  unfold scanStep perIdEvents outcomeOf
  by_cases h : project_id < end_id <;> simp [h, h']

theorem scanStep_foldl (fetch : Int → FetchResult) (end_id : Int)
    (interval : Rat) (ids : List Int) (σ : ScannerState) (evs : List Event) :
    ids.foldl (scanStep fetch end_id interval) (σ, evs) =
      ({ hidden_projects := σ.hidden_projects ++
           (ids.map (outcomeOf fetch)).filter hiddenPred,
         scan_results := σ.scan_results ++ ids.map (outcomeOf fetch) },
       evs ++ (ids.map (perIdEvents end_id interval)).flatten) := by
  induction ids generalizing σ evs with
  | nil => simp
  | cons pid rest ih =>
      rw [List.foldl_cons, scanStep_eq, ih]
      by_cases h : hiddenPred (outcomeOf fetch pid) <;>
        simp [h, List.filter_cons, List.append_assoc]

theorem idRange_length (s e : Int) :
    (idRange s e).length = (e + 1 - s).toNat := by
  rw [idRange, List.length_map, List.length_range]

theorem idRange_map_eq (s e : Int) (f : Int → β) :
    (idRange s e).map f = (List.range (e + 1 - s).toNat).map
      (fun (k : Nat) => f (s + (k : Int))) := by
  simp [idRange, Function.comp]

theorem idRange_get (s e : Int) (k : Nat) (hk : k < (idRange s e).length) :
    (idRange s e).get ⟨k, hk⟩ = s + (k : Int) := by
  simp [idRange]

/-- Whether an event is a `time.sleep` call. -/
def Event.isSleep : Event → Bool
  | Event.sleep _ => true
  | _ => false

/-- Whether an event is an HTTP GET. -/
def Event.isFetch : Event → Bool
  | Event.fetch _ => true
  | _ => false

theorem countP_sleep_flatten (end_id : Int) (interval : Rat) (ids : List Int) :
    ((ids.map (perIdEvents end_id interval)).flatten).countP Event.isSleep
      = ids.countP (fun pid => decide (pid < end_id)) := by
  induction ids with
  | nil => rfl
  | cons pid rest ih =>
      by_cases h : pid < end_id <;>
        simp [perIdEvents, List.countP_cons, List.countP_append, h, ih,
              Event.isSleep]

theorem countP_fetch_flatten (end_id : Int) (interval : Rat) (ids : List Int) :
    ((ids.map (perIdEvents end_id interval)).flatten).countP Event.isFetch
      = ids.length := by
  induction ids with
  | nil => rfl
  | cons pid rest ih =>
      by_cases h : pid < end_id <;>
        simp [perIdEvents, List.countP_cons, List.countP_append, h, ih,
              Event.isFetch]

theorem sleep_mem_flatten (end_id : Int) (interval : Rat) (ids : List Int)
    (ev : Event) (hmem : ev ∈ (ids.map (perIdEvents end_id interval)).flatten)
    (hsleep : ev.isSleep = true) : ev = Event.sleep interval := by
  rw [List.mem_flatten] at hmem
  obtain ⟨l, hl, hev⟩ := hmem
  rw [List.mem_map] at hl
  obtain ⟨pid, _, rfl⟩ := hl
  unfold perIdEvents at hev
  rw [List.mem_cons] at hev
  rcases hev with rfl | h
  · simp [Event.isSleep] at hsleep
  · by_cases hlt : pid < end_id
    · simp [hlt] at h; exact h
    · simp [hlt] at h

theorem countP_range_lt (n : Nat) (s e : Int) :
    (List.range n).countP (fun (k : Nat) => decide (s + (k : Int) < e))
      = min n (e - s).toNat := by
  induction n with
  | zero => simp
  | succ n ih =>
      rw [List.range_succ, List.countP_append, ih]
      by_cases h : s + (n : Int) < e <;>
        simp [List.countP_cons, h] <;> omega

theorem idRange_countP_lt (s e : Int) (h : s ≤ e) :
    (idRange s e).countP (fun pid => decide (pid < e)) = (e - s).toNat := by
  rw [idRange, List.countP_map]
  have : ((fun pid => decide (pid < e)) ∘ fun (k : Nat) => s + (k : Int))
      = fun (k : Nat) => decide (s + (k : Int) < e) := rfl
  rw [this, countP_range_lt]
  omega

theorem outcomeOf_id (fetch : Int → FetchResult) (project_id : Int) :
    (outcomeOf fetch project_id).id = project_id := by
  unfold outcomeOf scan_project
  cases h : (get_project_info project_id (fetch project_id)).1 with
  | none => rfl
  | some info =>
      by_cases hh : info.hide = some 1 <;> simp [hh, initial_outcome]

theorem decodeOutcome_encode (o : ScanOutcome) :
    decodeOutcome (encodeOutcome o) = some o := by
  obtain ⟨i, h, n, st, e⟩ := o
  cases h <;> cases n <;> cases e <;> rfl

theorem decodeOutcomes_encode (l : List ScanOutcome) :
    decodeOutcomes (l.map encodeOutcome) = some l := by
  induction l with
  | nil => rfl
  | cons o rest ih => simp [decodeOutcomes, decodeOutcome_encode, ih]

/-- **C9**: every `ScanOutcome` returned by `scan_project` has status
`'success'` or `'error'`; the initial `'unknown'` placeholder status is always
overwritten before the outcome is returned, so no other status value is
observable. -/
theorem scan_outcome_status_dichotomy (σ : ScannerState) (project_id : Int)
    (r : FetchResult) :
    (scan_project σ project_id r).1.status = "success" ∨
    (scan_project σ project_id r).1.status = "error" := by
  unfold scan_project
  cases h : (get_project_info project_id r).1 with
  | none => right; rfl
  | some info =>
      by_cases hh : info.hide = some 1 <;> simp [hh, initial_outcome]

/-- **C4**: `scan_project` is total over every possible fetch result: every
failure mode of the underlying fetch (transport error, non-2xx HTTP status,
undecodable body, any other exception, or a non-zero application code) yields
a `ScanOutcome` with status `'error'` instead of propagating, and `scan_range`
always processes the whole range — one outcome is appended per ID of the range
no matter what the fetch oracle returns. -/
theorem scan_project_never_propagates (σ : ScannerState) (project_id : Int) :
    (∀ e, (scan_project σ project_id
        (FetchResult.transportError e)).1.status = "error")
    ∧ (∀ e, (scan_project σ project_id
        (FetchResult.httpError e)).1.status = "error")
    ∧ (∀ e, (scan_project σ project_id
        (FetchResult.decodeError e)).1.status = "error")
    ∧ (∀ e, (scan_project σ project_id
        (FetchResult.otherError e)).1.status = "error")
    ∧ (∀ code message data, code ≠ some 0 →
        (scan_project σ project_id
          (FetchResult.payload code message data)).1.status = "error")
    ∧ (∀ (fetch : Int → FetchResult) (interval : Rat) (start_id end_id : Int),
        (scan_range fetch σ start_id end_id interval).1.scan_results.length
          = σ.scan_results.length + (end_id + 1 - start_id).toNat) := by
  refine ⟨fun e => rfl, fun e => rfl, fun e => rfl, fun e => rfl,
          fun code message data h => ?_, fun fetch interval s e => ?_⟩
  · simp [scan_project, get_project_info, h]
  · rw [scan_range, scanStep_foldl]
    simp [idRange_length]

/-- **C8**: whenever the fetch fails for any reason (`get_project_info`
returns `None`), the outcome has status `'error'`, `hide = None`,
`name = None` and the non-null error message `'无法获取项目信息'`; whenever
the fetch yields a well-formed payload (application code 0 with a data
object), the outcome has status `'success'` regardless of the hide value. -/
theorem scan_outcome_field_contract (σ : ScannerState) (project_id : Int) :
    (∀ r, (get_project_info project_id r).1 = none →
        ((scan_project σ project_id r).1.status = "error"
         ∧ (scan_project σ project_id r).1.hide = none
         ∧ (scan_project σ project_id r).1.name = none
         ∧ (scan_project σ project_id r).1.error = some "无法获取项目信息"))
    ∧ (∀ (message : Option String) (hv : Option Int) (nm : Option String),
        (scan_project σ project_id
          (FetchResult.payload (some 0) message
            (some ⟨hv, nm⟩))).1.status = "success") := by
  constructor
  · intro r hr
    unfold scan_project
    rw [hr]
    exact ⟨rfl, rfl, rfl, rfl⟩
  · intro message hv nm
    by_cases hh : hv = some 1 <;>
      simp [scan_project, get_project_info, hh, initial_outcome]

/-- **C5**: a successful payload whose data object lacks a `hide` field gives
an outcome with `hide = None` (not coerced to 0), and such an outcome is never
added to the hidden-projects collection; more generally any hide value other
than exactly 1 leaves the hidden-projects collection unchanged. -/
theorem hide_absent_never_hidden (σ : ScannerState) (project_id : Int)
    (message : Option String) (nm : Option String) :
    ((scan_project σ project_id (FetchResult.payload (some 0) message
        (some ⟨none, nm⟩))).1.hide = none)
    ∧ ((scan_project σ project_id (FetchResult.payload (some 0) message
        (some ⟨none, nm⟩))).2.hidden_projects = σ.hidden_projects)
    ∧ (∀ hv : Option Int, hv ≠ some 1 →
        (scan_project σ project_id (FetchResult.payload (some 0) message
          (some ⟨hv, nm⟩))).2.hidden_projects = σ.hidden_projects) := by
  refine ⟨rfl, rfl, fun hv h => ?_⟩
  simp [scan_project, get_project_info, initial_outcome, h]

/-- **C3 counterexample**: for the payload `{code:10002, message:"not found"}`
the outcome's error message does not reflect the server-supplied text: it is
the fixed string `'无法获取项目信息'`, identical to the message produced by a
pure transport failure, so it is exactly the generic failure message. -/
theorem server_message_counterexample :
    ((scan_project init_state 5 (FetchResult.payload (some 10002)
        (some "not found") none)).1.error
      = (scan_project init_state 5
          (FetchResult.transportError "Connection timed out")).1.error)
    ∧ ((scan_project init_state 5 (FetchResult.payload (some 10002)
        (some "not found") none)).1.error = some "无法获取项目信息") := by
  exact ⟨rfl, rfl⟩

/-- **C3 amended**: a response whose embedded application code is non-zero
yields an outcome with status `'error'`, but the outcome's stored error
message is the generic `'无法获取项目信息'` (the same one used for network
failures); the server-supplied message text appears only in the console line
printed by `get_project_info`. -/
theorem app_error_generic_message (σ : ScannerState) (project_id : Int)
    (code : Option Int) (m : String) (data : Option ProjData)
    (h : code ≠ some 0) :
    ((scan_project σ project_id
        (FetchResult.payload code (some m) data)).1.status = "error")
    ∧ ((scan_project σ project_id
        (FetchResult.payload code (some m) data)).1.error
          = some "无法获取项目信息")
    ∧ ((get_project_info project_id (FetchResult.payload code (some m) data)).2
        = ["API返回错误 ID " ++ toString project_id ++ ": " ++ m]) := by
  refine ⟨?_, ?_, ?_⟩ <;> simp [scan_project, get_project_info, h]

/-- Witness for **C4**: a payload with code 10002 is a non-zero application
code; at this concrete input the outcome's status evaluates to `'error'`. -/
theorem scan_project_never_propagates_witness :
    (some 10002 : Option Int) ≠ some 0 ∧
    (scan_project init_state 7 (FetchResult.payload (some 10002)
      (some "not found") none)).1.status = "error" :=
  ⟨by decide,
   (scan_project_never_propagates init_state 7).2.2.2.2.1
     (some 10002) (some "not found") none (by decide)⟩

/-- Witness for **C8**: a transport failure at ID 7 satisfies the failure
hypothesis and yields the error outcome with all contract fields. -/
theorem scan_outcome_field_contract_witness :
    ((get_project_info 7 (FetchResult.transportError "timeout")).1 = none)
    ∧ ((scan_project init_state 7
          (FetchResult.transportError "timeout")).1.status = "error"
       ∧ (scan_project init_state 7
          (FetchResult.transportError "timeout")).1.hide = none
       ∧ (scan_project init_state 7
          (FetchResult.transportError "timeout")).1.name = none
       ∧ (scan_project init_state 7
          (FetchResult.transportError "timeout")).1.error
            = some "无法获取项目信息") :=
  ⟨rfl, (scan_outcome_field_contract init_state 7).1
          (FetchResult.transportError "timeout") rfl⟩

/-- Witness for **C5**: `hide = 0` is different from 1, and at this concrete
input the hidden-projects collection is left unchanged. -/
theorem hide_absent_never_hidden_witness :
    (some 0 : Option Int) ≠ some 1 ∧
    (scan_project init_state 7 (FetchResult.payload (some 0) none
      (some ⟨some 0, some "X"⟩))).2.hidden_projects
        = init_state.hidden_projects :=
  ⟨by decide,
   (hide_absent_never_hidden init_state 7 none (some "X")).2.2
     (some 0) (by decide)⟩

/-- Witness for **C3 amended**: at code 10002 with message `"not found"` the
outcome is an error with the generic stored message, and the console line
carries the server-supplied text. -/
theorem app_error_generic_message_witness :
    (some 10002 : Option Int) ≠ some 0 ∧
    (((scan_project init_state 5
        (FetchResult.payload (some 10002) (some "not found") none)).1.status
          = "error")
     ∧ ((scan_project init_state 5
        (FetchResult.payload (some 10002) (some "not found") none)).1.error
          = some "无法获取项目信息")
     ∧ ((get_project_info 5
          (FetchResult.payload (some 10002) (some "not found") none)).2
        = ["API返回错误 ID " ++ toString (5 : Int) ++ ": " ++ "not found"])) :=
  ⟨by decide,
   app_error_generic_message init_state 5 (some 10002) "not found" none
     (by decide)⟩

/-- **C1**: for `start_id ≤ end_id`, `scan_range` on a fresh scanner appends
exactly `end_id - start_id + 1` outcomes to the outcome log, whose ids are the
contiguous strictly ascending sequence `start_id..end_id`: the outcome at
position `k` has id `start_id + k`. -/
theorem scan_range_contiguous (fetch : Int → FetchResult) (interval : Rat)
    (start_id end_id : Int) (h : start_id ≤ end_id) :
    ((scan_range fetch init_state start_id end_id interval).1.scan_results.map
        (fun o => o.id) = idRange start_id end_id)
    ∧ (((scan_range fetch init_state start_id end_id
          interval).1.scan_results.length : Int) = end_id - start_id + 1)
    ∧ (∀ (k : Nat) (hk : k < (scan_range fetch init_state start_id end_id
          interval).1.scan_results.length),
        ((scan_range fetch init_state start_id end_id
          interval).1.scan_results.get ⟨k, hk⟩).id = start_id + (k : Int)) := by
  rw [scan_range, scanStep_foldl]
  refine ⟨?_, ?_, ?_⟩
  · simp [init_state, List.map_map, Function.comp_def, outcomeOf_id]
  · simp [init_state, idRange_length]
    omega
  · intro k hk
    simp only [init_state, List.nil_append] at hk ⊢
    rw [List.get_eq_getElem, List.getElem_map]
    rw [outcomeOf_id]
    have hk' : k < (idRange start_id end_id).length := by
      simpa using hk
    have := idRange_get start_id end_id k hk'
    rw [List.get_eq_getElem] at this
    exact this

/-- Witness for **C1**: the scan of range 1..3 with an always-failing fetch
has exactly 3 = 3 - 1 + 1 logged outcomes. -/
theorem scan_range_contiguous_witness :
    (1 : Int) ≤ 3 ∧
    (((scan_range (fun _ => FetchResult.transportError "t") init_state 1 3
        0).1.scan_results.length : Int) = 3 - 1 + 1) :=
  ⟨by decide,
   (scan_range_contiguous (fun _ => FetchResult.transportError "t") 0 1 3
     (by decide)).2.1⟩

/-- **C2**: at every point during and after a scan on a fresh scanner (after
any prefix of the ID range has been processed, and in particular after
`scan_range` returns), the hidden-projects collection is exactly the
subsequence, in first-seen order, of logged outcomes with status `'success'`
and hide 1, and it contains no outcome with status `'error'` or with hide
absent. -/
theorem hidden_projects_invariant (fetch : Int → FetchResult) (interval : Rat)
    (start_id end_id : Int) (k : Nat) :
    (let σ' := (((idRange start_id end_id).take k).foldl
        (scanStep fetch end_id interval) (init_state, [])).1
     σ'.hidden_projects = σ'.scan_results.filter hiddenPred
     ∧ σ'.hidden_projects.all
         (fun o => o.status == "success" && o.hide == some 1) = true)
    ∧ ((scan_range fetch init_state start_id end_id interval).1.hidden_projects
        = (scan_range fetch init_state start_id end_id
            interval).1.scan_results.filter hiddenPred) := by
  constructor
  · rw [scanStep_foldl]
    constructor
    · simp [init_state]
    · rw [List.all_eq_true]
      intro o ho
      simp only [init_state, List.nil_append, List.mem_filter] at ho
      exact ho.2
  · rw [scan_range, scanStep_foldl]
    simp [init_state]

/-- **C6**: for `start_id ≤ end_id`, `scan_range` sleeps exactly once after
each scanned ID except the last — `end_id - start_id` sleeps for
`end_id - start_id + 1` fetches, every sleep lasting exactly `interval`; in
particular a single-ID scan performs one fetch and no sleep. -/
theorem scan_range_delay_count (fetch : Int → FetchResult) (σ : ScannerState)
    (interval : Rat) (start_id end_id : Int) (h : start_id ≤ end_id) :
    ((scan_range fetch σ start_id end_id interval).2.countP Event.isSleep
        = (end_id - start_id).toNat)
    ∧ ((scan_range fetch σ start_id end_id interval).2.countP Event.isFetch
        = (end_id - start_id + 1).toNat)
    ∧ (∀ ev ∈ (scan_range fetch σ start_id end_id interval).2,
        ev.isSleep = true → ev = Event.sleep interval) := by
  rw [scan_range, scanStep_foldl]
  refine ⟨?_, ?_, ?_⟩
  · simp only [List.nil_append]
    rw [countP_sleep_flatten, idRange_countP_lt _ _ h]
  · simp only [List.nil_append]
    rw [countP_fetch_flatten, idRange_length]
    omega
  · intro ev hmem hsleep
    simp only [List.nil_append] at hmem
    exact sleep_mem_flatten _ _ _ _ hmem hsleep

/-- Witness for **C6**: the single-ID scan `scan_range(5, 5, 1)` performs zero
inter-request sleeps. -/
theorem scan_range_delay_count_witness :
    (5 : Int) ≤ 5 ∧
    ((scan_range (fun _ => FetchResult.transportError "t") init_state 5 5
        1).2.countP Event.isSleep = ((5 : Int) - 5).toNat) :=
  ⟨by decide,
   (scan_range_delay_count (fun _ => FetchResult.transportError "t")
     init_state 1 5 5 (by decide)).1⟩

/-- **C7**: parsing the JSON document written by `save_results` yields back
exactly `total_scanned` (the length of the outcome log), `hidden_count` (the
length of the hidden-projects collection), and every outcome of `all_results`
and `hidden_projects` in scan order with its `{id, hide, name, status, error}`
fields unchanged. -/
theorem save_results_round_trip (scan_time : String) (σ : ScannerState) :
    ((save_results_doc scan_time σ).getField "total_scanned"
        = some (Json.num (σ.scan_results.length : Int)))
    ∧ ((save_results_doc scan_time σ).getField "hidden_count"
        = some (Json.num (σ.hidden_projects.length : Int)))
    ∧ (((save_results_doc scan_time σ).getField "all_results").bind
          decodeOutcomeArr = some σ.scan_results)
    ∧ (((save_results_doc scan_time σ).getField "hidden_projects").bind
          decodeOutcomeArr = some σ.hidden_projects) := by
  refine ⟨rfl, rfl, ?_, ?_⟩
  · show decodeOutcomes (σ.scan_results.map encodeOutcome)
        = some σ.scan_results
    exact decodeOutcomes_encode _
  · show decodeOutcomes (σ.hidden_projects.map encodeOutcome)
        = some σ.hidden_projects
    exact decodeOutcomes_encode _

/-- **C10**: the outcome log and hidden-projects collection live in the
scanner state and are never cleared by `scan_range`: a second scan on the same
instance appends after the first scan's outcomes (each scan contributes
exactly what it would produce alone), and the saved document's
`total_scanned` / `hidden_count` range over the union of both scans. -/
theorem scanner_state_accumulates (fetch1 fetch2 : Int → FetchResult)
    (i1 i2 : Rat) (s1 e1 s2 e2 : Int) (scan_time : String) :
    ((scan_range fetch2 (scan_range fetch1 init_state s1 e1 i1).1 s2 e2
        i2).1.scan_results
      = (scan_range fetch1 init_state s1 e1 i1).1.scan_results
        ++ (scan_range fetch2 init_state s2 e2 i2).1.scan_results)
    ∧ ((scan_range fetch2 (scan_range fetch1 init_state s1 e1 i1).1 s2 e2
        i2).1.hidden_projects
      = (scan_range fetch1 init_state s1 e1 i1).1.hidden_projects
        ++ (scan_range fetch2 init_state s2 e2 i2).1.hidden_projects)
    ∧ ((save_results_doc scan_time
          (scan_range fetch2 (scan_range fetch1 init_state s1 e1 i1).1 s2 e2
            i2).1).getField "total_scanned"
      = some (Json.num
          (((scan_range fetch1 init_state s1 e1 i1).1.scan_results.length
            + (scan_range fetch2 init_state s2 e2
                i2).1.scan_results.length : Nat) : Int)))
    ∧ ((save_results_doc scan_time
          (scan_range fetch2 (scan_range fetch1 init_state s1 e1 i1).1 s2 e2
            i2).1).getField "hidden_count"
      = some (Json.num
          (((scan_range fetch1 init_state s1 e1 i1).1.hidden_projects.length
            + (scan_range fetch2 init_state s2 e2
                i2).1.hidden_projects.length : Nat) : Int))) := by
  have key : (scan_range fetch2 (scan_range fetch1 init_state s1 e1 i1).1 s2
      e2 i2).1.scan_results
      = (scan_range fetch1 init_state s1 e1 i1).1.scan_results
        ++ (scan_range fetch2 init_state s2 e2 i2).1.scan_results := by
    simp [scan_range, scanStep_foldl, init_state]
  have key2 : (scan_range fetch2 (scan_range fetch1 init_state s1 e1 i1).1 s2
      e2 i2).1.hidden_projects
      = (scan_range fetch1 init_state s1 e1 i1).1.hidden_projects
        ++ (scan_range fetch2 init_state s2 e2 i2).1.hidden_projects := by
    simp [scan_range, scanStep_foldl, init_state]
  refine ⟨key, key2, ?_, ?_⟩
  · show some (Json.num ((scan_range fetch2 (scan_range fetch1 init_state s1
        e1 i1).1 s2 e2 i2).1.scan_results.length : Int)) = _
    rw [key, List.length_append]
  · show some (Json.num ((scan_range fetch2 (scan_range fetch1 init_state s1
        e1 i1).1 s2 e2 i2).1.hidden_projects.length : Int)) = _
    rw [key2, List.length_append]
